import Mathlib

/-!
A shallow embedding of the VitalDex HealthCheckPro symptom-checker quiz
engine (the `SymptomChecker` class of the quiz script) and theorems about
its data loading, navigation state machine, answer storage, scoring,
result export and auto-advance scheduling.

Pure engine state is translated into explicit state passing: every
mutating method becomes a function from `Session` (or `World`, which adds
the pending `setTimeout` auto-advance callbacks) to a new state, paired
with the list of externally observable completion events it emits.
-/

namespace VitalDex

/-! ## JavaScript numeric parsing

`selectAnswer` and `selectScaleAnswer` read `dataset` strings from a DOM
button and convert them with `parseInt` (no radix argument) combined with
the JS `||` fallback, where both `NaN` and `0` are falsy.  `parseIntJS`
models `parseInt`: skip leading whitespace, optional sign, an optional
`0x`/`0X` hexadecimal prefix, then the longest run of digits; no digits
means `NaN`, modelled as `none`. -/

def jsDigit? (c : Char) : Option Nat :=
  if c.isDigit then some (c.toNat - 48) else none

def jsHexDigit? (c : Char) : Option Nat :=
  if c.isDigit then some (c.toNat - 48)
  else if 'a' ≤ c ∧ c ≤ 'f' then some (c.toNat - 87)
  else if 'A' ≤ c ∧ c ≤ 'F' then some (c.toNat - 55)
  else none

def parseIntCore (digit? : Char → Option Nat) (base : Nat) (cs : List Char) : Option Nat :=
  let ds := cs.takeWhile (fun c => (digit? c).isSome)
  if ds.isEmpty then none
  else some (ds.foldl (fun a c => a * base + ((digit? c).getD 0)) 0)

def parseIntJS (s : String) : Option Int :=
  let cs := s.data.dropWhile Char.isWhitespace
  let sgn : Int := match cs with
    | '-' :: _ => -1
    | _ => 1
  let cs1 : List Char := match cs with
    | '-' :: r => r
    | '+' :: r => r
    | _ => cs
  match cs1 with
  | '0' :: x :: r =>
      if x = 'x' ∨ x = 'X' then (parseIntCore jsHexDigit? 16 r).map (fun n => sgn * n)
      else (parseIntCore jsDigit? 10 cs1).map (fun n => sgn * n)
  | _ => (parseIntCore jsDigit? 10 cs1).map (fun n => sgn * n)

/-- JS `a || b` applied to the result of `parseInt`: `NaN` (`none`) and `0`
are falsy, so they select the fallback `b`. -/
def jsOrInt (a : Option Int) (b : Int) : Int :=
  match a with
  | some n => if n = 0 then b else n
  | none => b

/-- A `data-weight` attribute read through `button.dataset.weight`: a missing
attribute is `undefined`, and `parseInt(undefined)` is `NaN` (`none`). -/
def parseWeightAttr (w : Option String) : Option Int :=
  match w with
  | none => none
  | some s => parseIntJS s

/-! ## Data model -/

/-- An answer record stored in `this.answers[questionIndex]`:
`{ value, weight, text }`. -/
structure Answer where
  value : String
  weight : Int
  text : String
deriving DecidableEq

/-- `this.answers` is a JS object keyed by question index.  It is modelled
as an association list with unique keys; `Object.values` order never
matters for the theorems below. -/
abbrev AnswerStore := List (Nat × Answer)

/-- `this.answers.hasOwnProperty(i)`. -/
def hasAnswer (store : AnswerStore) (i : Nat) : Bool :=
  store.any (fun p => p.1 == i)

/-- `this.answers[i] = a`: overwrite semantics of JS property assignment. -/
def recordAnswer (store : AnswerStore) (i : Nat) (a : Answer) : AnswerStore :=
  store.filter (fun p => p.1 != i) ++ [(i, a)]

/-- Read `this.answers[i]`. -/
def getAnswer (store : AnswerStore) (i : Nat) : Option Answer :=
  (store.find? (fun p => p.1 == i)).map (fun p => p.2)

/-- `SymptomChecker.calculateScore`: sum of `answer.weight` over
`Object.values(this.answers)`. -/
def calculateScore (store : AnswerStore) : Int :=
  (store.map (fun p => p.2.weight)).sum

inductive RiskLevel where
  | low
  | moderate
  | high
deriving DecidableEq

/-- One bucket of `quizData.scoring` (`scoring.low`, `scoring.moderate`,
`scoring.high`), with its `max` bound, display `level` label and `color`. -/
structure Bucket where
  max : Int
  level : String := ""
  color : String := ""
deriving DecidableEq

structure ScoringRules where
  low : Bucket
  moderate : Bucket
  high : Bucket
deriving DecidableEq

structure Recommendations where
  low : List String := []
  moderate : List String := []
  high : List String := []
deriving DecidableEq

def Recommendations.get (r : Recommendations) : RiskLevel → List String
  | .low => r.low
  | .moderate => r.moderate
  | .high => r.high

/-- A question of `quizData.questions`; the engine's state machine only
consumes the list's length, the rest is rendered by DOM code. -/
structure Question where
  question : String := ""
  qtype : String := "choice"
deriving DecidableEq

/-- The loaded `quizData` document. -/
structure QuizData where
  questions : List Question
  scoring : ScoringRules
  recommendations : Recommendations
  maxScore : Option Int := none
  autoAdvance : Option Bool := none
deriving DecidableEq

/-- `this.quizData.autoAdvance !== false`: auto-advance defaults to on. -/
def autoAdvanceEnabled (d : QuizData) : Bool :=
  d.autoAdvance != some false

/-- The mutable per-engine state: `this.currentQuestion`, `this.answers`,
`this.totalScore`, `this.isQuizCompleted`, plus the constructor argument
`this.toolName`. -/
structure Session where
  toolName : String
  currentQuestion : Nat := 0
  answers : AnswerStore := []
  totalScore : Int := 0
  isQuizCompleted : Bool := false
deriving DecidableEq

/-- A DOM answer button as `selectAnswer` / `selectScaleAnswer` read it:
the index from the enclosing `.question` element's `data-question`
attribute, the `dataset.value` and `dataset.weight` strings (the latter
possibly missing), and the optional `.text` span content. -/
structure AnswerButton where
  questionIndex : Nat
  value : String
  weight : Option String
  text : Option String := none
deriving DecidableEq

/-- Externally observable completion side effects: the
`trackEvent('quiz_completed', ...)` payload emitted by `completeQuiz`
(`{tool, score, level, answers: Object.keys(this.answers).length}`). -/
inductive Event where
  | quizCompleted (tool : String) (score : Int) (level : RiskLevel) (answeredCount : Nat)
deriving DecidableEq

/-! ## Engine operations -/

/-- `SymptomChecker.canProceed`:
`this.answers.hasOwnProperty(this.currentQuestion)`. -/
def canProceed (s : Session) : Bool :=
  hasAnswer s.answers s.currentQuestion

/-- `SymptomChecker.getResultLevel`, after the score has been computed:
`score <= scoring.low.max` gives `low`, else `score <= scoring.moderate.max`
gives `moderate`, else `high`. -/
def classify (score : Int) (sc : ScoringRules) : RiskLevel :=
  if score ≤ sc.low.max then .low
  else if score ≤ sc.moderate.max then .moderate
  else .high

/-- `SymptomChecker.getResultLevel` as a pure reading of the session. -/
def getResultLevel (store : AnswerStore) (sc : ScoringRules) : RiskLevel :=
  classify (calculateScore store) sc

/-- `SymptomChecker.selectAnswer` (choice buttons): stores
`{value, weight: parseInt(weight) || 0, text: span-text || value}` at the
button's question index.  No comparison with `this.currentQuestion` is
made. -/
def selectAnswerCore (s : Session) (b : AnswerButton) : Session :=
  let value := b.value
  let weight := jsOrInt (parseWeightAttr b.weight) 0
  let text := match b.text with
    | some t => if t = "" then value else t
    | none => value
  let a : Answer := { value := value, weight := weight, text := text }
  { s with answers := recordAnswer s.answers b.questionIndex a }

/-- `SymptomChecker.selectScaleAnswer`: stores
`{value, weight: parseInt(weight) || parseInt(value) || 0, text: Scale-value}`
at the button's question index.  It schedules no auto-advance. -/
def selectScaleAnswerCore (s : Session) (b : AnswerButton) : Session :=
  let value := b.value
  let weight := jsOrInt (parseWeightAttr b.weight) (jsOrInt (parseIntJS b.value) 0)
  let a : Answer := { value := value, weight := weight, text := "Scale: " ++ value }
  { s with answers := recordAnswer s.answers b.questionIndex a }

/-- `SymptomChecker.completeQuiz`: sets `isQuizCompleted`, recomputes the
score (`calculateScore` assigns `this.totalScore`), classifies it and
emits the `quiz_completed` tracking event. -/
def completeQuiz (s : Session) (d : QuizData) : Session × List Event :=
  let score := calculateScore s.answers
  let level := classify score d.scoring
  ({ s with isQuizCompleted := true, totalScore := score },
   [.quizCompleted s.toolName score level s.answers.length])

/-- `SymptomChecker.nextQuestion`: returns unchanged unless `canProceed()`;
advances while `currentQuestion < questions.length - 1`, otherwise runs
`completeQuiz()`.  There is no `isQuizCompleted` guard. -/
def nextQuestion (s : Session) (d : QuizData) : Session × List Event :=
  if !canProceed s then (s, [])
  else if s.currentQuestion < d.questions.length - 1 then
    ({ s with currentQuestion := s.currentQuestion + 1 }, [])
  else completeQuiz s d

/-- `SymptomChecker.previousQuestion`: decrements `currentQuestion`
whenever it is positive; there is no completion guard. -/
def previousQuestion (s : Session) : Session :=
  if s.currentQuestion > 0 then { s with currentQuestion := s.currentQuestion - 1 }
  else s

/-- `SymptomChecker.restartQuiz`: resets the session fields to their
initial values.  It does not touch any pending timer. -/
def restartQuiz (s : Session) : Session :=
  { s with currentQuestion := 0, answers := [], totalScore := 0, isQuizCompleted := false }

/-- The exported result object of `SymptomChecker.exportResults`. -/
structure Result where
  tool : String
  score : Int
  level : RiskLevel
  answers : AnswerStore
  completedAt : String
  recommendations : List String
deriving DecidableEq

/-- `SymptomChecker.exportResults`: `null` unless `isQuizCompleted`;
otherwise builds the result object.  The `score` field reads
`this.totalScore` before the `getResultLevel()` calls in the same object
literal reassign it via `calculateScore`, so the returned session carries
the recomputed `totalScore`.  `now` stands for `new Date().toISOString()`. -/
def exportResults (s : Session) (d : QuizData) (now : String) : Option Result × Session :=
  if !s.isQuizCompleted then (none, s)
  else
    let score := s.totalScore
    let level := getResultLevel s.answers d.scoring
    let s1 := { s with totalScore := calculateScore s.answers }
    (some { tool := s.toolName, score := score, level := level,
            answers := s.answers, completedAt := now,
            recommendations := d.recommendations.get level }, s1)

/-! ## Timers: the auto-advance world

`selectAnswer` ends with `setTimeout(() => { if (this.canProceed())
this.nextQuestion(); }, 1000)` whenever `quizData.autoAdvance !== false`.
The timer id is discarded: nothing in the class ever calls `clearTimeout`.
`World` pairs the session with the number of pending (not yet fired)
auto-advance callbacks; all pending callbacks are the same closure over
`this`. -/

structure World where
  session : Session
  pendingAutoAdvance : Nat := 0
deriving DecidableEq

/-- `selectAnswer` on the world: store the answer and, if auto-advance is
enabled, schedule one more delayed callback.  No existing schedule is
cancelled. -/
def selectAnswerW (w : World) (d : QuizData) (b : AnswerButton) : World :=
  { session := selectAnswerCore w.session b,
    pendingAutoAdvance :=
      w.pendingAutoAdvance + (if autoAdvanceEnabled d then 1 else 0) }

/-- Manual `nextQuestion` on the world: pending timers are untouched. -/
def nextW (w : World) (d : QuizData) : World × List Event :=
  let r := nextQuestion w.session d
  ({ w with session := r.1 }, r.2)

/-- Manual `previousQuestion` on the world: pending timers are untouched. -/
def previousW (w : World) : World :=
  { w with session := previousQuestion w.session }

/-- `restartQuiz` on the world: resets the session; pending timers are
untouched because the timer id was never kept. -/
def restartW (w : World) : World :=
  { w with session := restartQuiz w.session }

/-- One pending auto-advance timer fires: the callback re-reads the live
`this` and runs `nextQuestion()` only when `canProceed()` holds at firing
time. -/
def fireAutoAdvance (w : World) (d : QuizData) : World × List Event :=
  if w.pendingAutoAdvance = 0 then (w, [])
  else
    let w1 := { w with pendingAutoAdvance := w.pendingAutoAdvance - 1 }
    if canProceed w1.session then
      let r := nextQuestion w1.session d
      ({ w1 with session := r.1 }, r.2)
    else (w1, [])

/-! ## Data loading

`SymptomChecker.loadQuizData` distinguishes three failure shapes: a
non-`ok` fetch response (`HTTP error! status: ...`), an unparseable body
(the `response.json()` rejection), and a parseable document that is
`null`, lacks a `questions` field or has zero questions
(`Invalid quiz data structure`, the failure the specification names
`EmptyQuestionSet`).  `scoringRules` is never validated. -/

structure RawQuizDoc where
  questions : Option (List Question) := none
  scoring : Option ScoringRules := none
deriving DecidableEq

inductive ParsedBody where
  | jsNull
  | doc (d : RawQuizDoc)
deriving DecidableEq

/-- The resolved fetch of `./quiz-data.json`: HTTP status and, when the
body is syntactically valid JSON, its parse. -/
structure FetchResponse where
  ok : Bool
  status : Nat
  body : Option ParsedBody
deriving DecidableEq

inductive LoadError where
  | httpError (status : Nat)
  | parseError
  | invalidStructure
deriving DecidableEq

/-- `SymptomChecker.loadQuizData` as a function of the fetch outcome. -/
def loadQuizData (r : FetchResponse) : Except LoadError RawQuizDoc :=
  if !r.ok then .error (.httpError r.status)
  else
    match r.body with
    | none => .error .parseError
    | some .jsNull => .error .invalidStructure
    | some (.doc d) =>
        match d.questions with
        | none => .error .invalidStructure
        | some [] => .error .invalidStructure
        | some _ => .ok d

/-- `SymptomChecker.init`: on any `loadQuizData` failure the catch block
shows an error screen and no quiz session is set up; on success the
freshly constructed session (current question 0, no answers) is live. -/
def initQuiz (r : FetchResponse) (toolName : String) : Option Session :=
  match loadQuizData r with
  | .error _ => none
  | .ok _ => some { toolName := toolName }

/-! ## Concrete demonstration data -/

def demoScoring : ScoringRules :=
  { low := { max := 5 }, moderate := { max := 10 }, high := { max := 20 } }

/-- A one-question quiz document. -/
def demoQuiz1 : QuizData :=
  { questions := [{}], scoring := demoScoring, recommendations := {} }

/-- A two-question quiz document. -/
def demoQuiz2 : QuizData :=
  { questions := [{}, {}], scoring := demoScoring, recommendations := {} }

def demoSession0 : Session := { toolName := "demo" }

def demoBtn0 : AnswerButton :=
  { questionIndex := 0, value := "yes", weight := some "2", text := some "Yes" }

def demoBtn1 : AnswerButton :=
  { questionIndex := 1, value := "no", weight := some "3", text := some "No" }

/-- A scale button whose explicit `data-weight` is `0` but whose value is
the nonzero numeral `7`. -/
def demoScaleBtn : AnswerButton :=
  { questionIndex := 0, value := "7", weight := some "0" }

/-- The one-question quiz driven to completion: answer question 0, then
`nextQuestion` (which completes). -/
def demoCompleted1 : Session :=
  (nextQuestion (selectAnswerCore demoSession0 demoBtn0) demoQuiz1).1

/-- The two-question quiz driven to completion: answer question 0, advance,
answer question 1, advance (completes at index 1). -/
def demoCompleted2 : Session :=
  (nextQuestion
    (selectAnswerCore
      ((nextQuestion (selectAnswerCore demoSession0 demoBtn0) demoQuiz2).1)
      demoBtn1)
    demoQuiz2).1

/-- Answer question 0 of the two-question quiz (scheduling an auto-advance
callback), press Next manually, then press Previous: the user is back at
question 0 with the callback still pending. -/
def demoStaleWorld : World :=
  previousW (nextW (selectAnswerW { session := demoSession0 } demoQuiz2 demoBtn0) demoQuiz2).1

/-- A fresh world with one pending callback and no recorded answers. -/
def demoFreshWorld : World :=
  { session := demoSession0, pendingAutoAdvance := 1 }

/-- A parseable response whose `questions` field is the empty array. -/
def demoEmptyResp : FetchResponse :=
  { ok := true, status := 200, body := some (.doc { questions := some [] }) }

/-! ## Helper lemmas -/

lemma hasAnswer_record (st : AnswerStore) (i : Nat) (a : Answer) :
    hasAnswer (recordAnswer st i a) i = true := by
  simp [hasAnswer, recordAnswer]

lemma getAnswer_record (st : AnswerStore) (i : Nat) (a : Answer) :
    getAnswer (recordAnswer st i a) i = some a := by
  induction st with
  | nil => simp [getAnswer, recordAnswer, List.find?]
  | cons p rest ih =>
      by_cases h : p.1 = i
      · simpa [recordAnswer, List.filter_cons, h] using ih
      · have hb : (p.1 != i) = true := by simpa using h
        simp only [recordAnswer, List.filter_cons, hb, if_true, List.cons_append] at ih ⊢
        unfold getAnswer at ih ⊢
        rw [List.find?_cons_of_neg]
        · exact ih
        · simpa using h

lemma recordAnswer_fresh (st : AnswerStore) (i : Nat) (a : Answer)
    (h : ∀ q ∈ st, q.1 ≠ i) : recordAnswer st i a = st ++ [(i, a)] := by
  unfold recordAnswer
  congr 1
  apply List.filter_eq_self.mpr
  intro q hq
  simpa using h q hq

lemma calculateScore_append (st l : AnswerStore) :
    calculateScore (st ++ l) = calculateScore st + calculateScore l := by
  simp [calculateScore]

/-! ## Claim theorems -/

/-- C1, counterexample: on the completed one-question session (still
holding the recorded answer), a further `nextQuestion` call runs
`completeQuiz` again and re-emits the completion event, so `next()` after
`Completed` is not a no-op with exactly-once observable completion. -/
theorem completed_next_fires_again :
    demoCompleted1.isQuizCompleted = true ∧
    (nextQuestion demoCompleted1 demoQuiz1).2 ≠ [] := by
  decide

/-- C1, amended: `next()` leaves everything unchanged unless
`canProceed()`; with an answer recorded it advances while
`i < N-1` and otherwise runs `completeQuiz`, emitting the completion
event.  However, after `Completed` (with the final answer still recorded
and the score invariant holding) a further `next()` call leaves the
session state unchanged but emits the completion side effects again:
completion is re-observable, not exactly-once. -/
theorem nextQuestion_behavior (s : Session) (d : QuizData) :
    (canProceed s = false → nextQuestion s d = (s, [])) ∧
    (canProceed s = true → s.currentQuestion < d.questions.length - 1 →
      nextQuestion s d = ({ s with currentQuestion := s.currentQuestion + 1 }, [])) ∧
    (canProceed s = true → ¬ s.currentQuestion < d.questions.length - 1 →
      (nextQuestion s d).1.isQuizCompleted = true ∧
      (nextQuestion s d).2 =
        [Event.quizCompleted s.toolName (calculateScore s.answers)
          (classify (calculateScore s.answers) d.scoring) s.answers.length]) ∧
    (s.isQuizCompleted = true → canProceed s = true →
      ¬ s.currentQuestion < d.questions.length - 1 →
      s.totalScore = calculateScore s.answers →
      (nextQuestion s d).1 = s ∧ (nextQuestion s d).2 ≠ []) := by
  refine ⟨?_, ?_, ?_, ?_⟩
  · intro h
    simp [nextQuestion, h]
  · intro h hlt
    simp [nextQuestion, h, hlt]
  · intro h hge
    simp [nextQuestion, h, hge, completeQuiz]
  · intro hc h hge hts
    constructor
    · cases s with
      | mk toolName currentQuestion answers totalScore isQuizCompleted =>
          simp only [nextQuestion, completeQuiz, h, Bool.not_true, if_false, hge, if_true] at *
          simp [← hts, hc]
    · simp [nextQuestion, h, hge, completeQuiz]

/-- C1, witness for the amended theorem at the completed one-question
session. -/
theorem nextQuestion_behavior_witness :
    (nextQuestion demoCompleted1 demoQuiz1).1 = demoCompleted1 ∧
    (nextQuestion demoCompleted1 demoQuiz1).2 ≠ [] :=
  (nextQuestion_behavior demoCompleted1 demoQuiz1).2.2.2
    (by decide) (by decide) (by decide) (by decide)

/-- C2, counterexample: with the session at question 0, selecting an
answer button that belongs to question 1 is not rejected: the answer is
written into the store at index 1. -/
theorem selectAnswer_nonCurrent_stored :
    demoSession0.currentQuestion = 0 ∧
    demoBtn1.questionIndex = 1 ∧
    hasAnswer (selectAnswerCore demoSession0 demoBtn1).answers 1 = true := by
  decide

/-- C2, amended: `selectAnswer` performs no currency check: it always
records the resolved answer at the button's own question index, even when
that index differs from the current one; it is total (never throws) and
leaves the navigation state (`currentQuestion`, `isQuizCompleted`)
unchanged. -/
theorem selectAnswer_records_at_button_index (s : Session) (b : AnswerButton)
    (h : b.questionIndex ≠ s.currentQuestion) :
    hasAnswer (selectAnswerCore s b).answers b.questionIndex = true ∧
    (selectAnswerCore s b).currentQuestion = s.currentQuestion ∧
    (selectAnswerCore s b).isQuizCompleted = s.isQuizCompleted := by
  refine ⟨?_, rfl, rfl⟩
  simp [selectAnswerCore, hasAnswer_record]

/-- C2, witness at the concrete non-current selection. -/
theorem selectAnswer_records_at_button_index_witness :
    hasAnswer (selectAnswerCore demoSession0 demoBtn1).answers demoBtn1.questionIndex = true ∧
    (selectAnswerCore demoSession0 demoBtn1).currentQuestion = demoSession0.currentQuestion ∧
    (selectAnswerCore demoSession0 demoBtn1).isQuizCompleted = demoSession0.isQuizCompleted :=
  selectAnswer_records_at_button_index demoSession0 demoBtn1 (by decide)

/-- C5, counterexample: the completed two-question session sits at
index 1; `previousQuestion` moves it back to index 0 while it is still
`Completed`, so `previous()` is not a no-op in the `Completed` state. -/
theorem previous_after_completed_moves :
    demoCompleted2.isQuizCompleted = true ∧
    demoCompleted2.currentQuestion = 1 ∧
    (previousQuestion demoCompleted2).currentQuestion = 0 ∧
    (previousQuestion demoCompleted2).isQuizCompleted = true := by
  decide

/-- C5, amended: `previousQuestion` is a no-op at index 0 and decrements
the index whenever it is positive — including when the session is
`Completed`, since the code has no completion guard. -/
theorem previousQuestion_behavior (s : Session) :
    (s.currentQuestion = 0 → previousQuestion s = s) ∧
    (0 < s.currentQuestion →
      previousQuestion s = { s with currentQuestion := s.currentQuestion - 1 }) := by
  constructor
  · intro h
    simp [previousQuestion, h]
  · intro h
    simp [previousQuestion, h]

/-- C5, witness: the amended behavior at the completed two-question
session. -/
theorem previousQuestion_behavior_witness :
    previousQuestion demoCompleted2 =
      { demoCompleted2 with currentQuestion := demoCompleted2.currentQuestion - 1 } :=
  (previousQuestion_behavior demoCompleted2).2 (by decide)

/-- The scoring buckets in ascending evaluation order, as the
specification describes them. -/
def specBuckets (sc : ScoringRules) : List (RiskLevel × Int) :=
  [(.low, sc.low.max), (.moderate, sc.moderate.max), (.high, sc.high.max)]

/-- Modelled from the spec's words, for comparison with `classify`:
evaluate buckets by ascending `maxScore`, return the first bucket whose
`maxScore` is at least the score, and when none matches return the bucket
with the largest `maxScore` (ties resolved toward the later bucket of the
ascending order). -/
def classifySpec (score : Int) (buckets : List (RiskLevel × Int)) : RiskLevel :=
  match buckets.find? (fun p => score ≤ p.2) with
  | some p => p.1
  | none =>
      (buckets.foldl (fun acc p => if acc.2 ≤ p.2 then p else acc) (RiskLevel.high, 0)).1

/-- C3: with monotone buckets (`low.max ≤ moderate.max ≤ high.max`),
`classify` agrees with the spec's first-matching-ascending-bucket rule
with largest-bucket fallback, and in particular with `low.max = 5`,
`moderate.max = 10` a score of 5 classifies `low`, 6 classifies
`moderate` and 11 classifies `high`. -/
theorem classify_matches_spec (sc : ScoringRules)
    (h1 : sc.low.max ≤ sc.moderate.max) (h2 : sc.moderate.max ≤ sc.high.max) :
    (∀ score : Int, classify score sc = classifySpec score (specBuckets sc)) ∧
    (sc.low.max = 5 → sc.moderate.max = 10 →
      classify 5 sc = .low ∧ classify 6 sc = .moderate ∧ classify 11 sc = .high) := by
  constructor
  · intro score
    by_cases hl : score ≤ sc.low.max
    · simp [classify, classifySpec, specBuckets, hl]
    · by_cases hm : score ≤ sc.moderate.max
      · simp [classify, classifySpec, specBuckets, hl, hm]
      · by_cases hh : score ≤ sc.high.max
        · simp [classify, classifySpec, specBuckets, hl, hm, hh]
        · simp only [classify, classifySpec, specBuckets, hl, hm, hh,
            List.find?_cons_of_neg, List.find?_nil, List.foldl, if_false,
            decide_eq_true_eq, not_false_iff]
          split_ifs <;> simp_all
  · intro e1 e2
    refine ⟨?_, ?_, ?_⟩ <;> simp [classify, e1, e2]

/-- C3, witness: the demonstration buckets (5, 10, 20) classify scores 5,
6 and 11 as the claim states. -/
theorem classify_matches_spec_witness :
    classify 5 demoScoring = .low ∧ classify 6 demoScoring = .moderate ∧
    classify 11 demoScoring = .high :=
  (classify_matches_spec demoScoring (by decide) (by decide)).2 (by decide) (by decide)

/-- Replaying a list of `selectAnswer`-style recordings against an empty
store, in order. -/
def buildStore (recs : List (Nat × Answer)) : AnswerStore :=
  recs.foldl (fun st p => recordAnswer st p.1 p.2) []

lemma buildStore_from (recs : List (Nat × Answer)) :
    ∀ st : AnswerStore, (recs.map Prod.fst).Nodup →
    (∀ p ∈ recs, ∀ q ∈ st, q.1 ≠ p.1) →
    calculateScore (recs.foldl (fun st p => recordAnswer st p.1 p.2) st) =
      calculateScore st + (recs.map (fun p => p.2.weight)).sum := by
  induction recs with
  | nil =>
      intro st _ _
      simp
  | cons p rest ih =>
      intro st hnd hdisj
      have hfresh : ∀ q ∈ st, q.1 ≠ p.1 :=
        fun q hq => hdisj p (List.mem_cons_self p rest) q hq
      have hnd2 : (p.1 :: rest.map Prod.fst).Nodup := by simpa using hnd
      have hhead : p.1 ∉ rest.map Prod.fst := (List.nodup_cons.mp hnd2).1
      have htail : (rest.map Prod.fst).Nodup := (List.nodup_cons.mp hnd2).2
      simp only [List.foldl_cons]
      rw [recordAnswer_fresh st p.1 p.2 hfresh]
      rw [ih (st ++ [(p.1, p.2)]) htail ?_]
      · rw [calculateScore_append]
        simp [calculateScore]
        ring
      · intro q hq r hr
        rcases List.mem_append.mp hr with hr1 | hr2
        · exact hdisj q (List.mem_cons_of_mem p hq) r hr1
        · have hreq : r = (p.1, p.2) := by simpa using hr2
          subst hreq
          intro hcontra
          apply hhead
          have hmem : q.1 ∈ List.map Prod.fst rest := List.mem_map_of_mem Prod.fst hq
          have hpq : p.1 = q.1 := hcontra
          rw [hpq]
          exact hmem

/-- C4: for any sequence of recordings with pairwise distinct question
indices (so also when only a strict subset of the questions is answered),
`calculateScore` of the resulting store is the sum of the recorded
weights, and any permutation of the recording order yields the same
score. -/
theorem score_is_order_independent_weight_sum
    (recs recs' : List (Nat × Answer)) (hperm : recs.Perm recs')
    (hnd : (recs.map Prod.fst).Nodup) :
    calculateScore (buildStore recs) = (recs.map (fun p => p.2.weight)).sum ∧
    calculateScore (buildStore recs') = calculateScore (buildStore recs) := by
  have h1 := buildStore_from recs [] hnd (by intro p _ q hq; cases hq)
  have hnd' : (recs'.map Prod.fst).Nodup := ((hperm.map Prod.fst).nodup_iff).mp hnd
  have h2 := buildStore_from recs' [] hnd' (by intro p _ q hq; cases hq)
  have hsum : (recs'.map (fun p => p.2.weight)).sum = (recs.map (fun p => p.2.weight)).sum :=
    ((hperm.map (fun p => p.2.weight)).sum_eq).symm
  constructor
  · simpa [buildStore, calculateScore] using h1
  · rw [buildStore, buildStore, h1, h2, hsum]

/-- C4, witness: recording weights 2 and 3 at indices 0 and 1 in either
order scores 5. -/
theorem score_is_order_independent_weight_sum_witness :
    calculateScore (buildStore [(0, { value := "a", weight := 2, text := "A" }),
                                (1, { value := "b", weight := 3, text := "B" })]) =
      ([(0, ({ value := "a", weight := 2, text := "A" } : Answer)),
        (1, ({ value := "b", weight := 3, text := "B" } : Answer))].map
          (fun p => p.2.weight)).sum ∧
    calculateScore (buildStore [(1, { value := "b", weight := 3, text := "B" }),
                                (0, { value := "a", weight := 2, text := "A" })]) =
      calculateScore (buildStore [(0, { value := "a", weight := 2, text := "A" }),
                                  (1, { value := "b", weight := 3, text := "B" })]) :=
  score_is_order_independent_weight_sum
    [(0, { value := "a", weight := 2, text := "A" }),
     (1, { value := "b", weight := 3, text := "B" })]
    [(1, { value := "b", weight := 3, text := "B" }),
     (0, { value := "a", weight := 2, text := "A" })]
    (by decide) (by decide)

/-- C6: `exportResults` yields no result on any session that is not
completed; on a completed session satisfying the completion invariant
(`totalScore` equals the recomputed score, as `completeQuiz` establishes),
two successive calls with no intervening operation return snapshots with
equal `score`, `level`, `answers` and `recommendations`. -/
theorem exportResults_gated_and_idempotent (s : Session) (d : QuizData)
    (t1 t2 : String) :
    (s.isQuizCompleted = false → (exportResults s d t1).1 = none) ∧
    (s.isQuizCompleted = true → s.totalScore = calculateScore s.answers →
      ∃ r1 r2 : Result,
        (exportResults s d t1).1 = some r1 ∧
        (exportResults (exportResults s d t1).2 d t2).1 = some r2 ∧
        r1.score = r2.score ∧ r1.level = r2.level ∧ r1.answers = r2.answers ∧
        r1.recommendations = r2.recommendations) := by
  constructor
  · intro h
    simp [exportResults, h]
  · intro h hinv
    refine ⟨{ tool := s.toolName, score := s.totalScore,
              level := getResultLevel s.answers d.scoring,
              answers := s.answers, completedAt := t1,
              recommendations := d.recommendations.get (getResultLevel s.answers d.scoring) },
            { tool := s.toolName, score := calculateScore s.answers,
              level := getResultLevel s.answers d.scoring,
              answers := s.answers, completedAt := t2,
              recommendations := d.recommendations.get (getResultLevel s.answers d.scoring) },
            ?_, ?_, ?_, rfl, rfl, rfl⟩
    · simp [exportResults, h]
    · simp [exportResults, h]
    · simpa using hinv

/-- C6, witness at the completed one-question session. -/
theorem exportResults_gated_and_idempotent_witness :
    ∃ r1 r2 : Result,
      (exportResults demoCompleted1 demoQuiz1 "t1").1 = some r1 ∧
      (exportResults (exportResults demoCompleted1 demoQuiz1 "t1").2 demoQuiz1 "t2").1 =
        some r2 ∧
      r1.score = r2.score ∧ r1.level = r2.level ∧ r1.answers = r2.answers ∧
      r1.recommendations = r2.recommendations :=
  (exportResults_gated_and_idempotent demoCompleted1 demoQuiz1 "t1" "t2").2
    (by decide) (by decide)

/-- C7, counterexample: after answering question 0 (which schedules an
auto-advance), pressing Next manually and then Previous, the schedule is
still pending — manual navigation invalidated nothing — and when it fires
it advances the session away from the question the user navigated back
to.  A stale scheduled `next()` thus mutates the session state that
superseded it. -/
theorem stale_auto_advance_mutates_superseding_state :
    demoStaleWorld.pendingAutoAdvance = 1 ∧
    demoStaleWorld.session.currentQuestion = 0 ∧
    (fireAutoAdvance demoStaleWorld demoQuiz2).1.session.currentQuestion = 1 := by
  decide

/-- C7, amended: no auto-advance schedule carries a usable cancellation
handle: `restartQuiz`, `previousQuestion` and `nextQuestion` leave every
pending schedule in place, and a further `selectAnswer` only adds another
schedule (when auto-advance is enabled) without invalidating the previous
one.  The only guard a firing callback applies is the `canProceed`
re-check, which does not stop it from advancing a superseded state whose
current question is answered. -/
theorem auto_advance_never_cancelled (w : World) (d : QuizData) (b : AnswerButton) :
    (restartW w).pendingAutoAdvance = w.pendingAutoAdvance ∧
    (previousW w).pendingAutoAdvance = w.pendingAutoAdvance ∧
    (nextW w d).1.pendingAutoAdvance = w.pendingAutoAdvance ∧
    (autoAdvanceEnabled d = true →
      (selectAnswerW w d b).pendingAutoAdvance = w.pendingAutoAdvance + 1) := by
  refine ⟨rfl, rfl, rfl, ?_⟩
  intro h
  simp [selectAnswerW, h]

/-- C7, witness: with auto-advance enabled, selecting on the fresh world
adds a schedule and cancels nothing. -/
theorem auto_advance_never_cancelled_witness :
    (selectAnswerW demoFreshWorld demoQuiz2 demoBtn0).pendingAutoAdvance =
      demoFreshWorld.pendingAutoAdvance + 1 :=
  (auto_advance_never_cancelled demoFreshWorld demoQuiz2 demoBtn0).2.2.2 (by decide)

/-- C8: a response that fetched successfully and parsed to a document
whose `questions` array is empty fails with the structure failure (the
spec's `EmptyQuestionSet`), which is a different failure value from the
HTTP failure (`NotFound`) and the parse failure (`Malformed`), and `init`
creates no session from it. -/
theorem load_empty_questions_fails (r : FetchResponse) (t : String) (doc : RawQuizDoc)
    (hok : r.ok = true) (hbody : r.body = some (.doc doc))
    (hq : doc.questions = some []) :
    loadQuizData r = .error .invalidStructure ∧
    initQuiz r t = none ∧
    (∀ st : Nat, LoadError.invalidStructure ≠ LoadError.httpError st) ∧
    LoadError.invalidStructure ≠ LoadError.parseError := by
  have hload : loadQuizData r = .error .invalidStructure := by
    simp [loadQuizData, hok, hbody, hq]
  refine ⟨hload, ?_, ?_, ?_⟩
  · simp [initQuiz, hload]
  · intro st hcontra
    cases hcontra
  · intro hcontra
    cases hcontra

/-- C8, witness at the concrete empty-questions response. -/
theorem load_empty_questions_fails_witness :
    loadQuizData demoEmptyResp = .error .invalidStructure ∧
    initQuiz demoEmptyResp "tool" = none ∧
    (∀ st : Nat, LoadError.invalidStructure ≠ LoadError.httpError st) ∧
    LoadError.invalidStructure ≠ LoadError.parseError :=
  load_empty_questions_fails demoEmptyResp "tool" { questions := some [] }
    rfl rfl rfl

/-- The scale-answer weight resolution chain as C9 describes it: the
integer parse of the weight attribute when it is a nonzero number,
otherwise the integer parse of the value when that is a nonzero number,
otherwise 0. -/
def scaleWeightSpec (b : AnswerButton) : Int :=
  match parseWeightAttr b.weight with
  | some n =>
      if n ≠ 0 then n
      else
        match parseIntJS b.value with
        | some m => if m ≠ 0 then m else 0
        | none => 0
  | none =>
      match parseIntJS b.value with
      | some m => if m ≠ 0 then m else 0
      | none => 0

/-- C9: `selectScaleAnswer` records at the button's question index an
answer whose weight follows the claimed fallback chain
(`parseInt(weight) || parseInt(value) || 0`): in particular a scale
option explicitly weighted 0 with a nonzero numeric value is recorded
with weight equal to that value. -/
theorem scale_weight_fallback (s : Session) (b : AnswerButton) :
    getAnswer (selectScaleAnswerCore s b).answers b.questionIndex =
      some { value := b.value, weight := scaleWeightSpec b,
             text := "Scale: " ++ b.value } ∧
    (∀ m : Int, parseWeightAttr b.weight = some 0 → parseIntJS b.value = some m →
      m ≠ 0 →
      (getAnswer (selectScaleAnswerCore s b).answers b.questionIndex).map
        Answer.weight = some m) := by
  have hchain : jsOrInt (parseWeightAttr b.weight) (jsOrInt (parseIntJS b.value) 0) =
      scaleWeightSpec b := by
    unfold scaleWeightSpec
    rcases parseWeightAttr b.weight with _ | n
    · rcases parseIntJS b.value with _ | m
      · simp [jsOrInt]
      · by_cases hm : m = 0 <;> simp [jsOrInt, hm]
    · rcases parseIntJS b.value with _ | m
      · by_cases hn : n = 0 <;> simp [jsOrInt, hn]
      · by_cases hn : n = 0 <;> by_cases hm : m = 0 <;> simp [jsOrInt, hn, hm]
  have hrec : getAnswer (selectScaleAnswerCore s b).answers b.questionIndex =
      some { value := b.value, weight := scaleWeightSpec b,
             text := "Scale: " ++ b.value } := by
    simp only [selectScaleAnswerCore]
    rw [getAnswer_record]
    rw [hchain]
  refine ⟨hrec, ?_⟩
  intro m hw hv hm
  have hws : scaleWeightSpec b = m := by
    unfold scaleWeightSpec
    rw [hw, hv]
    simp [hm]
  rw [hrec]
  simp [hws]

/-- C9, witness: a scale button with `data-weight` 0 and value 7 records
weight 7. -/
theorem scale_weight_fallback_witness :
    (getAnswer (selectScaleAnswerCore demoSession0 demoScaleBtn).answers
      demoScaleBtn.questionIndex).map Answer.weight = some 7 :=
  (scale_weight_fallback demoSession0 demoScaleBtn).2 7 (by decide) (by decide) (by decide)

/-- C10: a firing auto-advance callback re-checks `canProceed` on the
then-current session: when the current question has no recorded answer it
leaves the session unchanged and emits nothing; in particular a stale
callback firing right after `restartQuiz` (which clears all answers)
never advances the restarted session. -/
theorem auto_advance_rechecks_canProceed (w : World) (d : QuizData) :
    (canProceed w.session = false →
      (fireAutoAdvance w d).1.session = w.session ∧ (fireAutoAdvance w d).2 = []) ∧
    (fireAutoAdvance (restartW w) d).1.session = (restartW w).session := by
  have hfire : ∀ w' : World, canProceed w'.session = false →
      (fireAutoAdvance w' d).1.session = w'.session ∧ (fireAutoAdvance w' d).2 = [] := by
    intro w' h
    unfold fireAutoAdvance
    by_cases hp : w'.pendingAutoAdvance = 0
    · simp [hp]
    · simp [hp, h]
  constructor
  · exact hfire w
  · have hres : canProceed (restartW w).session = false := by
      simp [restartW, restartQuiz, canProceed, hasAnswer]
    exact (hfire (restartW w) hres).1

/-- C10, witness: on a world with one pending callback and no recorded
answers, firing the callback leaves the session unchanged. -/
theorem auto_advance_rechecks_canProceed_witness :
    (fireAutoAdvance demoFreshWorld demoQuiz2).1.session = demoFreshWorld.session ∧
    (fireAutoAdvance demoFreshWorld demoQuiz2).2 = [] :=
  (auto_advance_rechecks_canProceed demoFreshWorld demoQuiz2).1 (by decide)

end VitalDex
